import Mathlib

/-!
# Shallow embedding of `python-homewizard-energy`

This file embeds the two source files of the repository,
`homewizard_energy/models.py` and `homewizard_energy/homewizard_energy.py`,
into Lean 4 and proves properties of the embedded code.

Conventions of the embedding:
* Python JSON values are the inductive `Json`; JSON numbers are modelled as
  integers (the payload fields relevant to the verified properties are either
  strings, integers, lists or objects).
* Python exceptions are the inductive `HWError`; `HWError.className` is the
  Python exception class of a raised value.  The classes `RequestError`,
  `DisabledError` and `UnsupportedError` come from the repository's
  `errors.py`, which defines plain `Exception` subclasses.
* A Python function that may raise returns `Except HWError α`.
* `datetime.strptime(s, "%y%m%d%H%M%S")` is embedded as `parse12`, which
  accepts exactly the standard 12-digit form `yyMMddHHmmss` (two digits per
  field, fields in range, calendar-valid day) and fails otherwise;
  `strftime` with the same pattern is embedded as `format12`.
-/

/-- A JSON value as produced by `resp.json()`.  Numbers are modelled as
integers: every payload value the verified claims touch is a string, an
integer, a list or an object. -/
inductive Json where
  | null : Json
  | bool : Bool → Json
  | num : Int → Json
  | str : String → Json
  | arr : List Json → Json
  | obj : List (String × Json) → Json
deriving Repr

/-- Python dictionary lookup on the field list of a JSON object: the first
binding of the key, with JSON `null` collapsed to "absent" exactly as
`json.loads` turns `null` into Python `None`, making `d.get(k)` return `None`
both for a missing key and for an explicit null. -/
def pyLookup (fields : List (String × Json)) (key : String) : Option Json :=
  match fields.find? (fun kv => kv.1 = key) with
  | none => none
  | some (_, Json.null) => none
  | some (_, v) => some v

/-- The Python exceptions raised by the embedded code.  `valueError` carries
the message and, for the two-argument `ValueError(msg, hint)` raised for a
wrong-length AAD, the hint (otherwise `none`). -/
inductive HWError where
  | requestError : String → HWError
  | disabledError : String → HWError
  | unsupportedError : String → HWError
  | valueError : String → Option String → HWError
  | attributeError : HWError
  | typeError : HWError
deriving Repr, DecidableEq

/-- The Python exception class of a raised value; callers distinguish
failures by this class in `except` clauses. -/
def HWError.className : HWError → String
  | .requestError _ => "RequestError"
  | .disabledError _ => "DisabledError"
  | .unsupportedError _ => "UnsupportedError"
  | .valueError _ _ => "ValueError"
  | .attributeError => "AttributeError"
  | .typeError => "TypeError"

/-- Python `str()` on a JSON-decoded value, as applied by
`convert_timestamp_to_datetime` (`str(timestamp)`).  Strings pass through
and integers render in decimal — the two cases that occur in real payloads;
the remaining reprs are abbreviated since no verified property depends on
them. -/
def pyStr : Json → String
  | .null => "None"
  | .bool true => "True"
  | .bool false => "False"
  | .num n => toString n
  | .str s => s
  | .arr _ => "[...]"
  | .obj _ => "\x7b...\x7d"

/-- A calendar timestamp as built by `datetime.strptime`. -/
structure DateTime where
  year : Nat
  month : Nat
  day : Nat
  hour : Nat
  minute : Nat
  second : Nat
deriving Repr, DecidableEq

/-- The numeric value of an ASCII digit character (10 for non-digits). -/
def charToDigit : Char → Nat
  | '0' => 0
  | '1' => 1
  | '2' => 2
  | '3' => 3
  | '4' => 4
  | '5' => 5
  | '6' => 6
  | '7' => 7
  | '8' => 8
  | '9' => 9
  | _ => 10

/-- Whether a character is an ASCII digit, phrased through `charToDigit`. -/
def isDig (c : Char) : Bool := charToDigit c < 10

/-- The ASCII digit character of a value below ten. -/
def digitChar2 : Nat → Char
  | 0 => '0'
  | 1 => '1'
  | 2 => '2'
  | 3 => '3'
  | 4 => '4'
  | 5 => '5'
  | 6 => '6'
  | 7 => '7'
  | 8 => '8'
  | 9 => '9'
  | _ => '?'

/-- Zero-padded two-digit rendering of a value below 100, as `strftime`
renders each field of `%y%m%d%H%M%S`. -/
def pad2 (n : Nat) : List Char := [digitChar2 (n / 10), digitChar2 (n % 10)]

/-- The value of a two-digit group. -/
def pair2 (a b : Char) : Nat := 10 * charToDigit a + charToDigit b

/-- Split a character list into consecutive two-digit groups, failing unless
the whole list is digit pairs — the shape `%y%m%d%H%M%S` gives a 12-digit
input, where each directive greedily consumes exactly two digits. -/
def toPairs : List Char → Option (List Nat)
  | [] => some []
  | a :: b :: rest =>
      if isDig a ∧ isDig b then
        match toPairs rest with
        | some t => some (pair2 a b :: t)
        | none => none
      else none
  | _ => none

/-- The century rule of `%y` in `_strptime`: two-digit years up to 68 land in
the 2000s, the rest in the 1900s. -/
def yearFromYY (yy : Nat) : Nat := if yy ≤ 68 then 2000 + yy else 1900 + yy

/-- Gregorian leap-year test, as used by `datetime`. -/
def isLeap (y : Nat) : Bool := y % 4 = 0 ∧ (y % 100 ≠ 0 ∨ y % 400 = 0)

/-- Days in a month, as enforced by the `datetime` constructor. -/
def daysInMonth (y m : Nat) : Nat :=
  if m = 2 then (if isLeap y then 29 else 28)
  else if m = 4 ∨ m = 6 ∨ m = 9 ∨ m = 11 then 30
  else 31

/-- The range checks performed by `strptime`'s field regexes together with
the `datetime` constructor: month 1–12, calendar-valid day, hour below 24,
minute and second below 60. -/
def fieldsValid (y mo da ho mi se : Nat) : Bool :=
  1 ≤ mo ∧ mo ≤ 12 ∧ 1 ≤ da ∧ da ≤ daysInMonth y mo ∧ ho ≤ 23 ∧ mi ≤ 59 ∧ se ≤ 59

/-- `datetime.strptime(s, "%y%m%d%H%M%S")` on the character list of `s`:
exactly six two-digit groups, fields in range, calendar-valid day.  Any
other input raises `ValueError`. -/
def parse12Chars (l : List Char) : Except HWError DateTime :=
  match toPairs l with
  | some [yy, mo, da, ho, mi, se] =>
      if fieldsValid (yearFromYY yy) mo da ho mi se then
        .ok ⟨yearFromYY yy, mo, da, ho, mi, se⟩
      else
        .error (.valueError "time data does not match format" none)
  | _ => .error (.valueError "time data does not match format" none)

/-- `datetime.strptime(s, "%y%m%d%H%M%S")`. -/
def parse12 (s : String) : Except HWError DateTime := parse12Chars s.data

/-- `dt.strftime("%y%m%d%H%M%S")`: each field zero-padded to two digits, the
year reduced modulo 100. -/
def format12 (dt : DateTime) : String :=
  ⟨pad2 (dt.year % 100) ++ pad2 dt.month ++ pad2 dt.day ++
    pad2 dt.hour ++ pad2 dt.minute ++ pad2 dt.second⟩

/-! ## Round-trip machinery for the timestamp codec -/

theorem charToDigit_cases (c : Char) (h : charToDigit c < 10) :
    c = '0' ∨ c = '1' ∨ c = '2' ∨ c = '3' ∨ c = '4' ∨ c = '5' ∨ c = '6' ∨
    c = '7' ∨ c = '8' ∨ c = '9' := by
  unfold charToDigit at h
  split at h <;> simp_all

theorem digitChar2_charToDigit (c : Char) (h : isDig c = true) :
    digitChar2 (charToDigit c) = c := by
  have h' : charToDigit c < 10 := by
    simpa [isDig] using h
  rcases charToDigit_cases c h' with h | h | h | h | h | h | h | h | h | h <;>
    subst h <;> rfl

theorem charToDigit_lt (c : Char) (h : isDig c = true) : charToDigit c < 10 := by
  simpa [isDig] using h

theorem pad2_pair2 (a b : Char) (ha : isDig a = true) (hb : isDig b = true) :
    pad2 (pair2 a b) = [a, b] := by
  have ha' := charToDigit_lt a ha
  have hb' := charToDigit_lt b hb
  have hdiv : pair2 a b / 10 = charToDigit a := by
    unfold pair2; omega
  have hmod : pair2 a b % 10 = charToDigit b := by
    unfold pair2; omega
  simp [pad2, hdiv, hmod, digitChar2_charToDigit a ha, digitChar2_charToDigit b hb]

theorem pair2_lt (a b : Char) (ha : isDig a = true) (hb : isDig b = true) :
    pair2 a b < 100 := by
  have ha' := charToDigit_lt a ha
  have hb' := charToDigit_lt b hb
  unfold pair2; omega

/-- Splitting into digit pairs and re-rendering each pair reproduces the
input list. -/
theorem toPairs_join : ∀ (l : List Char) (ns : List Nat),
    toPairs l = some ns → (ns.map pad2).flatten = l
  | [], ns => by
      intro h
      simp [toPairs] at h
      subst h
      rfl
  | [a], ns => by
      intro h
      simp [toPairs] at h
  | a :: b :: rest, ns => by
      intro h
      unfold toPairs at h
      split at h
      case isTrue hd =>
        cases hrec : toPairs rest with
        | none => rw [hrec] at h; exact Option.noConfusion h
        | some t =>
            rw [hrec] at h
            simp at h
            subst h
            have ih := toPairs_join rest t hrec
            simp [List.map_cons, List.flatten, ih,
              pad2_pair2 a b (by exact hd.1) (by exact hd.2)]
      case isFalse => exact Option.noConfusion h

/-- Every pair value produced by `toPairs` is below 100. -/
theorem toPairs_lt : ∀ (l : List Char) (ns : List Nat),
    toPairs l = some ns → ∀ n ∈ ns, n < 100
  | [], ns => by
      intro h
      simp [toPairs] at h
      subst h
      intro n hn
      exact absurd hn (List.not_mem_nil n)
  | [a], ns => by
      intro h
      simp [toPairs] at h
  | a :: b :: rest, ns => by
      intro h
      unfold toPairs at h
      split at h
      case isTrue hd =>
        cases hrec : toPairs rest with
        | none => rw [hrec] at h; exact Option.noConfusion h
        | some t =>
            rw [hrec] at h
            simp at h
            subst h
            intro n hn
            rcases List.mem_cons.mp hn with h | h
            · subst h; exact pair2_lt a b (by exact hd.1) (by exact hd.2)
            · exact toPairs_lt rest t hrec n h
      case isFalse => exact Option.noConfusion h

theorem yearFromYY_mod (yy : Nat) (h : yy < 100) : yearFromYY yy % 100 = yy := by
  unfold yearFromYY
  split <;> omega

/-- Decoding a string with `%y%m%d%H%M%S` and re-rendering the resulting
timestamp with the same pattern reproduces the string. -/
theorem parse12_roundtrip (s : String) (dt : DateTime) (h : parse12 s = .ok dt) :
    format12 dt = s := by
  obtain ⟨l⟩ := s
  unfold parse12 parse12Chars at h
  split at h
  case h_1 yy mo da ho mi se heq =>
    split at h
    case isTrue hv =>
      injection h with h2
      subst h2
      have hyy : yy < 100 := toPairs_lt l _ heq yy (by simp)
      have hjoin := toPairs_join l _ heq
      unfold format12
      refine congrArg String.mk ?_
      dsimp only
      rw [yearFromYY_mod yy hyy]
      rw [← hjoin]
      simp [List.flatten, List.append_assoc]
    case isFalse => exact Except.noConfusion h
  case h_2 hne => exact Except.noConfusion h

/-! ## `models.py` -/

/-- `Device` (`models.py`): raw payload values, kept exactly as
`data.get(...)` returns them. -/
structure Device where
  product_name : Option Json
  product_type : Option Json
  serial : Option Json
  api_version : Option Json
  firmware_version : Option Json
deriving Repr

/-- `Device.from_dict`: five `data.get` lookups; calling it on a non-dict
payload raises `AttributeError` (`.get` does not exist). -/
def Device.from_dict : Json → Except HWError Device
  | .obj kvs =>
      .ok { product_name := pyLookup kvs "product_name"
            product_type := pyLookup kvs "product_type"
            serial := pyLookup kvs "serial"
            api_version := pyLookup kvs "api_version"
            firmware_version := pyLookup kvs "firmware_version" }
  | _ => .error .attributeError

/-- Modelled from the spec: the `Features` class (`features.py`) is not in
`src/`.  The spec fixes that it is constructed from the device's product
type and firmware version and exposes the four boolean capability
properties `has_state`, `has_system`, `has_identify`, `has_decryption`,
resolved by a pure lookup that is all-false for unrecognized product types
(fail closed).  The object stores its two constructor inputs and the four
flags; theorems that need a capability quantify over the stored flags. -/
structure Features where
  product_type : Option Json
  firmware_version : Option Json
  has_state : Bool
  has_system : Bool
  has_identify : Bool
  has_decryption : Bool
deriving Repr

/-- Modelled from the spec: the capability lookup behind
`Features(product_type, firmware_version)`.  The concrete product-type
table is not in `src/` and the spec does not enumerate it; the spec fixes
only that the lookup is a pure function of its two inputs with an all-false
fallback, which is what this model returns. -/
def Features.ofDevice (product_type firmware_version : Option Json) : Features :=
  { product_type := product_type
    firmware_version := firmware_version
    has_state := false
    has_system := false
    has_identify := false
    has_decryption := false }

/-- `ExternalDevice.DeviceType` (`models.py`). -/
inductive DeviceType where
  | UNKNOWN
  | GAS_METER
  | HEAT_METER
  | WARM_WATER_METER
  | WATER_METER
  | INLET_HEAT_METER
deriving Repr, DecidableEq

/-- `DeviceType.from_string`: the five known strings map to their variant;
any other value (including a missing/`None` one) hits `KeyError` and maps
to `UNKNOWN`. -/
def DeviceType.from_string : Option Json → DeviceType
  | some (.str "gas_meter") => .GAS_METER
  | some (.str "heat_meter") => .HEAT_METER
  | some (.str "warm_water_meter") => .WARM_WATER_METER
  | some (.str "water_meter") => .WATER_METER
  | some (.str "inlet_heat_meter") => .INLET_HEAT_METER
  | _ => .UNKNOWN

/-- `Data.convert_timestamp_to_datetime`: `None` passes through as `None`;
otherwise the value is rendered with `str()` and parsed with
`datetime.strptime(..., "%y%m%d%H%M%S")`, whose `ValueError` propagates. -/
def Data.convert_timestamp_to_datetime : Option Json → Except HWError (Option DateTime)
  | none => .ok none
  | some j =>
      match parse12 (pyStr j) with
      | .ok dt => .ok (some dt)
      | .error e => .error e

/-- `ExternalDevice` (`models.py`). -/
structure ExternalDevice where
  unique_id : Option Json
  meter_type : DeviceType
  value : Option Json
  unit : Option Json
  timestamp : Option DateTime
deriving Repr

/-- `ExternalDevice.from_dict`: four `data.get` lookups plus the timestamp
conversion, whose `ValueError` propagates; a non-dict element raises
`AttributeError` at the first `.get`. -/
def ExternalDevice.from_dict : Json → Except HWError ExternalDevice
  | .obj kvs => do
      let ts ← Data.convert_timestamp_to_datetime (pyLookup kvs "timestamp")
      .ok { unique_id := pyLookup kvs "unique_id"
            meter_type := DeviceType.from_string (pyLookup kvs "type")
            value := pyLookup kvs "value"
            unit := pyLookup kvs "unit"
            timestamp := ts }
  | _ => .error .attributeError

/-- `Data.get_external_devices`: `None` stays `None` (not an empty list);
a JSON list is converted element-wise with errors propagating.  Iterating a
non-list mirrors Python: a string yields its characters and a dict its keys
(each then failing `ExternalDevice.from_dict` unless empty), while a number
or boolean is not iterable (`TypeError`). -/
def Data.get_external_devices : Option Json → Except HWError (Option (List ExternalDevice))
  | none => .ok none
  | some (.arr items) =>
      (items.mapM ExternalDevice.from_dict).map some
  | some (.str s) =>
      ((s.data.mapM fun c => ExternalDevice.from_dict (.str ⟨[c]⟩)).map some)
  | some (.obj kvs) =>
      ((kvs.mapM fun kv => ExternalDevice.from_dict (.str kv.1)).map some)
  | some (.num _) => .error .typeError
  | some (.bool _) => .error .typeError
  | some .null => .error .typeError

/-- `Data` (`models.py`): raw payload values as `data.get` returns them,
the two decoded timestamps, and the external-device list exactly as
`get_external_devices` produces it (`Option`, because a missing `external`
key yields `None` at runtime even though the dataclass annotation promises
a plain list). -/
structure Data where
  wifi_ssid : Option Json
  wifi_strength : Option Json
  smr_version : Option Json
  meter_model : Option Json
  unique_meter_id : Option Json
  active_tariff : Option Json
  total_power_import_kwh : Option Json
  total_power_import_t1_kwh : Option Json
  total_power_import_t2_kwh : Option Json
  total_power_import_t3_kwh : Option Json
  total_power_import_t4_kwh : Option Json
  total_power_export_kwh : Option Json
  total_power_export_t1_kwh : Option Json
  total_power_export_t2_kwh : Option Json
  total_power_export_t3_kwh : Option Json
  total_power_export_t4_kwh : Option Json
  active_power_w : Option Json
  active_power_l1_w : Option Json
  active_power_l2_w : Option Json
  active_power_l3_w : Option Json
  active_voltage_l1_v : Option Json
  active_voltage_l2_v : Option Json
  active_voltage_l3_v : Option Json
  active_current_l1_a : Option Json
  active_current_l2_a : Option Json
  active_current_l3_a : Option Json
  active_frequency_hz : Option Json
  voltage_sag_l1_count : Option Json
  voltage_sag_l2_count : Option Json
  voltage_sag_l3_count : Option Json
  voltage_swell_l1_count : Option Json
  voltage_swell_l2_count : Option Json
  voltage_swell_l3_count : Option Json
  any_power_fail_count : Option Json
  long_power_fail_count : Option Json
  active_power_average_w : Option Json
  montly_power_peak_w : Option Json
  montly_power_peak_timestamp : Option DateTime
  total_gas_m3 : Option Json
  gas_timestamp : Option DateTime
  gas_unique_id : Option Json
  active_liter_lpm : Option Json
  total_liter_m3 : Option Json
  external_devices : Option (List ExternalDevice)
deriving Repr

/-- `Data.from_dict`: one `data.get` per recognized key, the two timestamp
conversions and the external-device conversion (each of which may raise),
and `AttributeError` on a non-dict payload. -/
def Data.from_dict : Json → Except HWError Data
  | .obj kvs => do
      let peak ← Data.convert_timestamp_to_datetime
        (pyLookup kvs "montly_power_peak_timestamp")
      let gas ← Data.convert_timestamp_to_datetime (pyLookup kvs "gas_timestamp")
      let ext ← Data.get_external_devices (pyLookup kvs "external")
      .ok { wifi_ssid := pyLookup kvs "wifi_ssid"
            wifi_strength := pyLookup kvs "wifi_strength"
            smr_version := pyLookup kvs "smr_version"
            meter_model := pyLookup kvs "meter_model"
            unique_meter_id := pyLookup kvs "unique_id"
            active_tariff := pyLookup kvs "active_tariff"
            total_power_import_kwh := pyLookup kvs "total_power_import_kwh"
            total_power_import_t1_kwh := pyLookup kvs "total_power_import_t1_kwh"
            total_power_import_t2_kwh := pyLookup kvs "total_power_import_t2_kwh"
            total_power_import_t3_kwh := pyLookup kvs "total_power_import_t3_kwh"
            total_power_import_t4_kwh := pyLookup kvs "total_power_import_t4_kwh"
            total_power_export_kwh := pyLookup kvs "total_power_export_kwh"
            total_power_export_t1_kwh := pyLookup kvs "total_power_export_t1_kwh"
            total_power_export_t2_kwh := pyLookup kvs "total_power_export_t2_kwh"
            total_power_export_t3_kwh := pyLookup kvs "total_power_export_t3_kwh"
            total_power_export_t4_kwh := pyLookup kvs "total_power_export_t4_kwh"
            active_power_w := pyLookup kvs "active_power_w"
            active_power_l1_w := pyLookup kvs "active_power_l1_w"
            active_power_l2_w := pyLookup kvs "active_power_l2_w"
            active_power_l3_w := pyLookup kvs "active_power_l3_w"
            active_voltage_l1_v := pyLookup kvs "active_voltage_l1_v"
            active_voltage_l2_v := pyLookup kvs "active_voltage_l2_v"
            active_voltage_l3_v := pyLookup kvs "active_voltage_l3_v"
            active_current_l1_a := pyLookup kvs "active_current_l1_a"
            active_current_l2_a := pyLookup kvs "active_current_l2_a"
            active_current_l3_a := pyLookup kvs "active_current_l3_a"
            active_frequency_hz := pyLookup kvs "active_frequency_hz"
            voltage_sag_l1_count := pyLookup kvs "voltage_sag_l1_count"
            voltage_sag_l2_count := pyLookup kvs "voltage_sag_l2_count"
            voltage_sag_l3_count := pyLookup kvs "voltage_sag_l3_count"
            voltage_swell_l1_count := pyLookup kvs "voltage_swell_l1_count"
            voltage_swell_l2_count := pyLookup kvs "voltage_swell_l2_count"
            voltage_swell_l3_count := pyLookup kvs "voltage_swell_l3_count"
            any_power_fail_count := pyLookup kvs "any_power_fail_count"
            long_power_fail_count := pyLookup kvs "long_power_fail_count"
            active_power_average_w := pyLookup kvs "active_power_average_w"
            montly_power_peak_w := pyLookup kvs "montly_power_peak_w"
            montly_power_peak_timestamp := peak
            total_gas_m3 := pyLookup kvs "total_gas_m3"
            gas_timestamp := gas
            gas_unique_id := pyLookup kvs "gas_unique_id"
            active_liter_lpm := pyLookup kvs "active_liter_lpm"
            total_liter_m3 := pyLookup kvs "total_liter_m3"
            external_devices := ext }
  | _ => .error .attributeError

/-- `State` (`models.py`). -/
structure State where
  power_on : Option Json
  switch_lock : Option Json
  brightness : Option Json
deriving Repr

/-- `State.from_dict`. -/
def State.from_dict : Json → Except HWError State
  | .obj kvs =>
      .ok { power_on := pyLookup kvs "power_on"
            switch_lock := pyLookup kvs "switch_lock"
            brightness := pyLookup kvs "brightness" }
  | _ => .error .attributeError

/-! ## `homewizard_energy.py` -/

/-- One HTTP call as issued by `HomeWizardEnergy.request`, with the URL
composed from the device host and the endpoint path. -/
structure Request where
  url : String
  method : String
  data : Option Json

/-- The transport-level outcome of one HTTP call: the deadline expired
(`asyncio.TimeoutError`), a connection-level fault
(`ClientError`/`ClientResponseError`), or a response with its status,
content type, JSON decoding and raw text. -/
inductive TransportOutcome where
  | timeout
  | clientError
  | response (status : Nat) (contentType : String) (jsonBody : Json) (textBody : String)

/-- The `aiohttp` session, abstracted to the outcome it yields for a call. -/
abbrev Transport := Request → TransportOutcome

/-- Modelled from the spec: `SUPPORTED_API_VERSION` lives in `const.py`,
which is not in `src/`; the spec fixes the single version this client
understands as `"1"` ("A device reporting API version `\x7b"2"\x7d` when the
client expects `"1"` fails `fetchDevice`"). -/
def SUPPORTED_API_VERSION : String := "1"

/-- Python `sub in s` on strings. -/
def strContains (s sub : String) : Bool := decide (sub.data <:+: s.data)

/-- Python `c in string.hexdigits`. -/
def inHexdigits (c : Char) : Bool := "0123456789abcdefABCDEF".data.contains c

/-- Python `==` between a JSON-decoded payload value and a string: true
exactly when the value is that string (`None`, numbers, lists and objects
never equal a `str`). -/
def pyEqStr : Option Json → String → Bool
  | some (.str s), v => s = v
  | _, _ => false

/-- `HomeWizardEnergy`: the host and the cached `_features` (the session
is abstracted into the `Transport` argument of each operation). -/
structure HomeWizardEnergy where
  host : String
  _features : Option Features

/-- `url = f"http://{self.host}/{path}"` as composed by `request`. -/
def HomeWizardEnergy.url (c : HomeWizardEnergy) (path : String) : String :=
  "http://" ++ c.host ++ "/" ++ path

/-- The result of one public operation: the returned value or raised
exception, the client state afterwards, and the HTTP calls issued. -/
structure Step (α : Type) where
  result : Except HWError α
  client : HomeWizardEnergy
  calls : List Request

/-- `HomeWizardEnergy.request`: a timeout raises
`RequestError("Timeout occurred ...")`, a connection fault raises
`RequestError("Error occurred ...")`, status 403 raises `DisabledError`,
any other non-200 status raises `RequestError("API request error ...")`,
and a 200 response yields its JSON decoding when the content type mentions
`application/json` and its raw text otherwise. -/
def HomeWizardEnergy.request (c : HomeWizardEnergy) (t : Transport)
    (path method : String) (data : Option Json) : Except HWError Json :=
  match t ⟨c.url path, method, data⟩ with
  | .timeout =>
      .error (.requestError
        "Timeout occurred while connecting to the HomeWizard Energy device")
  | .clientError =>
      .error (.requestError
        "Error occurred while communicating with the HomeWizard Energy device")
  | .response status contentType jsonBody textBody =>
      if status = 403 then
        .error (.disabledError
          "API disabled. API must be enabled in HomeWizard Energy app")
      else if status ≠ 200 then
        .error (.requestError ("API request error (" ++ toString status ++ ")"))
      else if strContains contentType "application/json" then
        .ok jsonBody
      else
        .ok (.str textBody)

/-- `HomeWizardEnergy.device`: fetch `api`, decode the payload, replace the
cached `_features` with one built from the decoded product type and
firmware version, and only then check the API version, raising
`UnsupportedError` on a mismatch. -/
def HomeWizardEnergy.device (c : HomeWizardEnergy) (t : Transport) : Step Device :=
  let req : Request := ⟨c.url "api", "GET", none⟩
  match c.request t "api" "GET" none with
  | .error e => ⟨.error e, c, [req]⟩
  | .ok response =>
      match Device.from_dict response with
      | .error e => ⟨.error e, c, [req]⟩
      | .ok dev =>
          let c' := { c with
            _features := some (Features.ofDevice dev.product_type dev.firmware_version) }
          if !(pyEqStr dev.api_version SUPPORTED_API_VERSION) then
            ⟨.error (.unsupportedError
              ("Unsupported API version, expected version '" ++
                SUPPORTED_API_VERSION ++ "'")), c', [req]⟩
          else
            ⟨.ok dev, c', [req]⟩

/-- The guard `if self.features is None:` in `HomeWizardEnergy.features`
tests the bound method object `self.features`, not the cached attribute
`self._features`; a bound method is never `None`. -/
def boundMethodIsNone : Bool := false

/-- `HomeWizardEnergy.features`: because its guard tests the bound method
(`boundMethodIsNone`), the fetch branch is dead and the cached `_features`
— possibly `None` — is returned without any device fetch. -/
def HomeWizardEnergy.features (c : HomeWizardEnergy) (t : Transport) :
    Step (Option Features) :=
  if boundMethodIsNone then
    let d := c.device t
    match d.result with
    | .error e => ⟨.error e, d.client, d.calls⟩
    | .ok _ => ⟨.ok d.client._features, d.client, d.calls⟩
  else
    ⟨.ok c._features, c, []⟩

/-- `HomeWizardEnergy.state`: consult `features()`; accessing `has_state` on
an unresolved (`None`) feature set raises `AttributeError`; a device without
the state capability yields `None` without a request; otherwise fetch and
decode `api/v1/state`. -/
def HomeWizardEnergy.state (c : HomeWizardEnergy) (t : Transport) :
    Step (Option State) :=
  let f := c.features t
  match f.result with
  | .error e => ⟨.error e, f.client, f.calls⟩
  | .ok none => ⟨.error .attributeError, f.client, f.calls⟩
  | .ok (some feats) =>
      if !feats.has_state then
        ⟨.ok none, f.client, f.calls⟩
      else
        match f.client.request t "api/v1/state" "GET" none with
        | .error e =>
            ⟨.error e, f.client,
              f.calls ++ [⟨f.client.url "api/v1/state", "GET", none⟩]⟩
        | .ok response =>
            match State.from_dict response with
            | .error e =>
                ⟨.error e, f.client,
                  f.calls ++ [⟨f.client.url "api/v1/state", "GET", none⟩]⟩
            | .ok st =>
                ⟨.ok (some st), f.client,
                  f.calls ++ [⟨f.client.url "api/v1/state", "GET", none⟩]⟩

/-- `HomeWizardEnergy.state_set`: capability check, then build the partial
state body in argument order; an empty body logs
"At least one state update is required" and returns `False` without a
request; otherwise `PUT api/v1/state` and return `True`. -/
def HomeWizardEnergy.state_set (c : HomeWizardEnergy) (t : Transport)
    (power_on switch_lock : Option Bool) (brightness : Option Int) : Step Bool :=
  let f := c.features t
  match f.result with
  | .error e => ⟨.error e, f.client, f.calls⟩
  | .ok none => ⟨.error .attributeError, f.client, f.calls⟩
  | .ok (some feats) =>
      if !feats.has_state then
        ⟨.error (.unsupportedError "Setting state is not supported with this device"),
          f.client, f.calls⟩
      else
        let state : List (String × Json) :=
          (match power_on with
            | some b => [("power_on", Json.bool b)]
            | none => []) ++
          (match switch_lock with
            | some b => [("switch_lock", Json.bool b)]
            | none => []) ++
          (match brightness with
            | some n => [("brightness", Json.num n)]
            | none => [])
        if state.isEmpty then
          ⟨.ok false, f.client, f.calls⟩
        else
          match f.client.request t "api/v1/state" "PUT" (some (.obj state)) with
          | .error e =>
              ⟨.error e, f.client,
                f.calls ++ [⟨f.client.url "api/v1/state", "PUT", some (.obj state)⟩]⟩
          | .ok _ =>
              ⟨.ok true, f.client,
                f.calls ++ [⟨f.client.url "api/v1/state", "PUT", some (.obj state)⟩]⟩

/-- The tail of `HomeWizardEnergy.decryption_set` after the validation of
`key` and `aad`: an empty body logs and returns `False` without a request;
otherwise `PUT api/v1/decryption` and return `True`. -/
def HomeWizardEnergy.decryption_set_send (cl : HomeWizardEnergy) (t : Transport)
    (calls : List Request) (data : List (String × Json)) : Step Bool :=
  if data.isEmpty then
    ⟨.ok false, cl, calls⟩
  else
    match cl.request t "api/v1/decryption" "PUT" (some (.obj data)) with
    | .error e =>
        ⟨.error e, cl,
          calls ++ [⟨cl.url "api/v1/decryption", "PUT", some (.obj data)⟩]⟩
    | .ok _ =>
        ⟨.ok true, cl,
          calls ++ [⟨cl.url "api/v1/decryption", "PUT", some (.obj data)⟩]⟩

/-- The `aad` validation of `HomeWizardEnergy.decryption_set`: a present
`aad` of length other than 34 raises the two-argument
`ValueError(msg, hint)`, the hint being set exactly when the length is 32;
a non-hexadecimal `aad` raises `ValueError`; a valid one joins the body. -/
def HomeWizardEnergy.decryption_set_aad (cl : HomeWizardEnergy) (t : Transport)
    (calls : List Request) (data : List (String × Json)) (aad : Option String) :
    Step Bool :=
  match aad with
  | none => HomeWizardEnergy.decryption_set_send cl t calls data
  | some a =>
      if a.length ≠ 34 then
        ⟨.error (.valueError "AAD length should be 34 characters long"
          (if a.length = 32 then
            some "Hint: Try prefixing AAD with '30', e.g. '30<AAD>'"
          else none)), cl, calls⟩
      else if !(a.data.all inHexdigits) then
        ⟨.error (.valueError
          "AAD should only contain hexadecimal characters (0-9/a-f)" none),
          cl, calls⟩
      else
        HomeWizardEnergy.decryption_set_send cl t calls (data ++ [("aad", .str a)])

/-- `HomeWizardEnergy.decryption_set`: capability check, `key` validation
(length 32, hexadecimal), then the `aad` validation and the send. -/
def HomeWizardEnergy.decryption_set (c : HomeWizardEnergy) (t : Transport)
    (key aad : Option String) : Step Bool :=
  let f := c.features t
  match f.result with
  | .error e => ⟨.error e, f.client, f.calls⟩
  | .ok none => ⟨.error .attributeError, f.client, f.calls⟩
  | .ok (some feats) =>
      if !feats.has_decryption then
        ⟨.error (.unsupportedError
          "Setting decryption is not supported with this device"),
          f.client, f.calls⟩
      else
        match key with
        | none => HomeWizardEnergy.decryption_set_aad f.client t f.calls [] aad
        | some k =>
            if k.length ≠ 32 then
              ⟨.error (.valueError "Key length should be 32 characters long" none),
                f.client, f.calls⟩
            else if !(k.data.all inHexdigits) then
              ⟨.error (.valueError
                "Key should only contain hexadecimal characters (0-9/a-f)" none),
                f.client, f.calls⟩
            else
              HomeWizardEnergy.decryption_set_aad f.client t f.calls
                [("key", .str k)] aad

/-! ## Claim theorems -/

/-- C1: the claim says the `features` accessor fetches the `Device` and
derives the `FeatureSet` when they are unresolved, so capability checks
never run against an absent feature set.  The code instead tests
`self.features is None` — the bound method, never `None` — so on a client
whose features are unresolved, `features()` fetches nothing and returns
`None`, and `state()`'s capability check then crashes with
`AttributeError`. -/
theorem c1_features_never_fetches (c : HomeWizardEnergy) (t : Transport)
    (h : c._features = none) :
    c.features t = ⟨.ok none, c, []⟩ ∧
    c.state t = ⟨.error .attributeError, c, []⟩ := by
  have hf : c.features t = ⟨.ok none, c, []⟩ := by
    unfold HomeWizardEnergy.features boundMethodIsNone
    simp [h]
  refine ⟨hf, ?_⟩
  unfold HomeWizardEnergy.state
  rw [hf]

theorem c1_features_never_fetches_witness :
    ({ host := "example", _features := none } : HomeWizardEnergy)._features = none ∧
    HomeWizardEnergy.features { host := "example", _features := none }
      (fun _ => .timeout) = ⟨.ok none, { host := "example", _features := none }, []⟩ ∧
    HomeWizardEnergy.state { host := "example", _features := none }
      (fun _ => .timeout) =
      ⟨.error .attributeError, { host := "example", _features := none }, []⟩ := by
  refine ⟨rfl, ?_, ?_⟩
  · exact (c1_features_never_fetches _ _ rfl).1
  · exact (c1_features_never_fetches _ _ rfl).2

/-- C9: `state()` on a client whose resolved feature set lacks the state
capability returns the designed "not applicable" value `None` — not an
error — and issues no HTTP request at all. -/
theorem c9_state_not_applicable (c : HomeWizardEnergy) (t : Transport)
    (f : Features) (hf : c._features = some f) (hs : f.has_state = false) :
    c.state t = ⟨.ok none, c, []⟩ := by
  have hfr : c.features t = ⟨.ok (some f), c, []⟩ := by
    unfold HomeWizardEnergy.features boundMethodIsNone
    simp [hf]
  unfold HomeWizardEnergy.state
  rw [hfr]
  simp [hs]

theorem c9_state_not_applicable_witness :
    ({ host := "example",
        _features := some ⟨none, none, false, false, false, false⟩ } :
      HomeWizardEnergy)._features = some ⟨none, none, false, false, false, false⟩ ∧
    (⟨none, none, false, false, false, false⟩ : Features).has_state = false ∧
    HomeWizardEnergy.state
      { host := "example", _features := some ⟨none, none, false, false, false, false⟩ }
      (fun _ => .timeout) =
      ⟨.ok none,
        { host := "example", _features := some ⟨none, none, false, false, false, false⟩ },
        []⟩ :=
  ⟨rfl, rfl, c9_state_not_applicable _ _ _ rfl rfl⟩

/-- C5 (counterexample): `state_set()` with no fields, on a client whose
resolved feature set has the state capability, does not raise the claimed
"no fields provided" error: it returns the plain value `False` (and makes
no HTTP call). -/
theorem c5_counterexample :
    (HomeWizardEnergy.state_set
      { host := "example", _features := some ⟨none, none, true, false, false, false⟩ }
      (fun _ => .timeout) none none none).result = .ok false ∧
    (HomeWizardEnergy.state_set
      { host := "example", _features := some ⟨none, none, true, false, false, false⟩ }
      (fun _ => .timeout) none none none).calls = [] := by
  exact ⟨rfl, rfl⟩

/-- C5 (amended): `state_set` with all three fields absent, on a client
whose resolved feature set has the state capability, performs zero HTTP
calls and returns `False` — a distinguishable non-success return value,
logged as an error, rather than a raised "no fields provided" exception. -/
theorem c5_state_set_no_fields (c : HomeWizardEnergy) (t : Transport)
    (f : Features) (hf : c._features = some f) (hs : f.has_state = true) :
    c.state_set t none none none = ⟨.ok false, c, []⟩ := by
  have hfr : c.features t = ⟨.ok (some f), c, []⟩ := by
    unfold HomeWizardEnergy.features boundMethodIsNone
    simp [hf]
  unfold HomeWizardEnergy.state_set
  rw [hfr]
  simp [hs]

theorem c5_state_set_no_fields_witness :
    ({ host := "example",
        _features := some ⟨none, none, true, false, false, false⟩ } :
      HomeWizardEnergy)._features = some ⟨none, none, true, false, false, false⟩ ∧
    (⟨none, none, true, false, false, false⟩ : Features).has_state = true ∧
    HomeWizardEnergy.state_set
      { host := "example", _features := some ⟨none, none, true, false, false, false⟩ }
      (fun _ => .timeout) none none none =
      ⟨.ok false,
        { host := "example", _features := some ⟨none, none, true, false, false, false⟩ },
        []⟩ :=
  ⟨rfl, rfl, c5_state_set_no_fields _ _ _ rfl rfl⟩

/-- C2 (counterexample): a malformed source value is not decoded to an
absent timestamp — `convert_timestamp_to_datetime` raises `ValueError`
(so the decoder can fail with a decode error, contrary to the claim). -/
theorem c2_counterexample :
    Data.convert_timestamp_to_datetime (some (.str "xx")) =
      .error (.valueError "time data does not match format" none) ∧
    Data.convert_timestamp_to_datetime (some (.str "xx")) ≠ .ok none :=
  ⟨rfl, fun hcon => Except.noConfusion hcon⟩

/-- C2 (amended): an absent (`None`) source value yields an absent decoded
timestamp, but a malformed source value does not — the `ValueError` of
`datetime.strptime` propagates out of the decoder. -/
theorem c2_convert_absent_ok_malformed_raises :
    Data.convert_timestamp_to_datetime none = .ok none ∧
    ∀ (s : String) (e : HWError), parse12 s = .error e →
      Data.convert_timestamp_to_datetime (some (.str s)) = .error e := by
  refine ⟨rfl, ?_⟩
  intro s e h
  unfold Data.convert_timestamp_to_datetime
  simp [pyStr, h]

theorem c2_convert_absent_ok_malformed_raises_witness :
    parse12 "notatimestamp" =
      .error (.valueError "time data does not match format" none) ∧
    Data.convert_timestamp_to_datetime (some (.str "notatimestamp")) =
      .error (.valueError "time data does not match format" none) :=
  ⟨rfl, c2_convert_absent_ok_malformed_raises.2 "notatimestamp" _ rfl⟩

/-- C3: for every string that the 12-digit decoder accepts, re-rendering
the decoded calendar timestamp with the same `yyMMddHHmmss` pattern
reproduces the original string. -/
theorem c3_timestamp_roundtrip (s : String) (dt : DateTime)
    (h : Data.convert_timestamp_to_datetime (some (.str s)) = .ok (some dt)) :
    format12 dt = s := by
  unfold Data.convert_timestamp_to_datetime at h
  simp only [pyStr] at h
  cases hp : parse12 s with
  | error e => rw [hp] at h; exact Except.noConfusion h
  | ok dt' =>
      rw [hp] at h
      simp only [Except.ok.injEq, Option.some.injEq] at h
      subst h
      exact parse12_roundtrip s dt' hp

theorem c3_timestamp_roundtrip_witness :
    Data.convert_timestamp_to_datetime (some (.str "211231235959")) =
      .ok (some ⟨2021, 12, 31, 23, 59, 59⟩) ∧
    format12 ⟨2021, 12, 31, 23, 59, 59⟩ = "211231235959" :=
  ⟨rfl, c3_timestamp_roundtrip "211231235959" ⟨2021, 12, 31, 23, 59, 59⟩ rfl⟩

/-- C4: the claim says a metered-data payload with no external-device key
decodes to an empty `external_devices` list; the code instead leaves the
field `None` (`get_external_devices` maps `None` to `None`), contradicting
the field's own non-optional `list[ExternalDevice]` annotation. -/
theorem c4_missing_external_yields_none (kvs : List (String × Json)) (d : Data)
    (hmiss : pyLookup kvs "external" = none)
    (h : Data.from_dict (.obj kvs) = .ok d) :
    d.external_devices = none := by
  simp only [Data.from_dict] at h
  rw [hmiss] at h
  cases hpeak : Data.convert_timestamp_to_datetime
      (pyLookup kvs "montly_power_peak_timestamp") with
  | error e =>
      rw [hpeak] at h
      exact Except.noConfusion h
  | ok peak =>
      rw [hpeak] at h
      cases hgas : Data.convert_timestamp_to_datetime (pyLookup kvs "gas_timestamp") with
      | error e =>
          rw [hgas] at h
          exact Except.noConfusion h
      | ok gas =>
          rw [hgas] at h
          simp only [Data.get_external_devices, Except.bind, bind,
            Except.ok.injEq] at h
          rw [← h]

/-- The fully absent `Data` record produced by decoding an empty payload. -/
def dataAllAbsent : Data :=
  { wifi_ssid := none
    wifi_strength := none
    smr_version := none
    meter_model := none
    unique_meter_id := none
    active_tariff := none
    total_power_import_kwh := none
    total_power_import_t1_kwh := none
    total_power_import_t2_kwh := none
    total_power_import_t3_kwh := none
    total_power_import_t4_kwh := none
    total_power_export_kwh := none
    total_power_export_t1_kwh := none
    total_power_export_t2_kwh := none
    total_power_export_t3_kwh := none
    total_power_export_t4_kwh := none
    active_power_w := none
    active_power_l1_w := none
    active_power_l2_w := none
    active_power_l3_w := none
    active_voltage_l1_v := none
    active_voltage_l2_v := none
    active_voltage_l3_v := none
    active_current_l1_a := none
    active_current_l2_a := none
    active_current_l3_a := none
    active_frequency_hz := none
    voltage_sag_l1_count := none
    voltage_sag_l2_count := none
    voltage_sag_l3_count := none
    voltage_swell_l1_count := none
    voltage_swell_l2_count := none
    voltage_swell_l3_count := none
    any_power_fail_count := none
    long_power_fail_count := none
    active_power_average_w := none
    montly_power_peak_w := none
    montly_power_peak_timestamp := none
    total_gas_m3 := none
    gas_timestamp := none
    gas_unique_id := none
    active_liter_lpm := none
    total_liter_m3 := none
    external_devices := none }

theorem c4_missing_external_yields_none_witness :
    pyLookup ([] : List (String × Json)) "external" = none ∧
    Data.from_dict (.obj []) = .ok dataAllAbsent ∧
    dataAllAbsent.external_devices = none :=
  ⟨rfl, rfl, c4_missing_external_yields_none [] dataAllAbsent rfl rfl⟩

/-- C6 (counterexample): with the decryption capability present, a call
passing a 32-character `aad` together with an invalid `key` raises the key
length `ValueError`, which carries no hint — so it is not the case that
whenever the supplied `aad` has exactly 32 characters the raised error
carries the `'30'`-prefix hint. -/
theorem c6_counterexample :
    ("01234567890123456789012345678901" : String).length = 32 ∧
    (HomeWizardEnergy.decryption_set
      { host := "example", _features := some ⟨none, none, false, false, false, true⟩ }
      (fun _ => .timeout) (some "00")
      (some "01234567890123456789012345678901")).result =
      .error (.valueError "Key length should be 32 characters long" none) ∧
    (HomeWizardEnergy.decryption_set
      { host := "example", _features := some ⟨none, none, false, false, false, true⟩ }
      (fun _ => .timeout) (some "00")
      (some "01234567890123456789012345678901")).calls = [] := by
  exact ⟨rfl, rfl, rfl⟩

/-- C6 (amended): with the feature set resolved and the decryption
capability present, and the `key` argument absent or passing its own
validation, a present `aad` whose length is not 34 raises the AAD-length
`ValueError` before any HTTP call, and the error carries the `'30'`-prefix
hint exactly when the supplied `aad` has 32 characters. -/
theorem c6_aad_length_check (c : HomeWizardEnergy) (t : Transport)
    (f : Features) (key : Option String) (a : String)
    (hf : c._features = some f) (hd : f.has_decryption = true)
    (hkey : ∀ k, key = some k → k.length = 32 ∧ k.data.all inHexdigits = true)
    (hlen : a.length ≠ 34) :
    c.decryption_set t key (some a) =
      ⟨.error (.valueError "AAD length should be 34 characters long"
        (if a.length = 32 then
          some "Hint: Try prefixing AAD with '30', e.g. '30<AAD>'"
        else none)), c, []⟩ := by
  have hfr : c.features t = ⟨.ok (some f), c, []⟩ := by
    unfold HomeWizardEnergy.features boundMethodIsNone
    simp [hf]
  unfold HomeWizardEnergy.decryption_set
  rw [hfr]
  simp only [hd, Bool.not_true, if_neg (by simp : ¬False)]
  cases key with
  | none =>
      unfold HomeWizardEnergy.decryption_set_aad
      simp [hlen]
  | some k =>
      obtain ⟨hk32, hkhex⟩ := hkey k rfl
      unfold HomeWizardEnergy.decryption_set_aad
      simp [hk32, hkhex, hlen]

theorem c6_aad_length_check_witness :
    ("01234567890123456789012345678901" : String).length ≠ 34 ∧
    HomeWizardEnergy.decryption_set
      { host := "example", _features := some ⟨none, none, false, false, false, true⟩ }
      (fun _ => .timeout) none (some "01234567890123456789012345678901") =
      ⟨.error (.valueError "AAD length should be 34 characters long"
        (some "Hint: Try prefixing AAD with '30', e.g. '30<AAD>'")),
        { host := "example", _features := some ⟨none, none, false, false, false, true⟩ },
        []⟩ := by
  refine ⟨by decide, ?_⟩
  have h := c6_aad_length_check
    { host := "example", _features := some ⟨none, none, false, false, false, true⟩ }
    (fun _ => .timeout) ⟨none, none, false, false, false, true⟩ none
    "01234567890123456789012345678901" rfl rfl
    (fun k hk => Option.noConfusion hk) (by decide)
  exact h.trans (by rw [if_pos (by decide)])

/-- C7 (counterexample): a timed-out call and a connection-fault call raise
exceptions of the very same class `RequestError`, so the caller cannot
distinguish the timeout failure from the connection-level failure by
exception type. -/
theorem c7_counterexample :
    HWError.className (.requestError
      "Timeout occurred while connecting to the HomeWizard Energy device") =
    HWError.className (.requestError
      "Error occurred while communicating with the HomeWizard Energy device") ∧
    HomeWizardEnergy.request { host := "example", _features := none }
      (fun _ => .timeout) "api/v1/data" "GET" none =
      .error (.requestError
        "Timeout occurred while connecting to the HomeWizard Energy device") ∧
    HomeWizardEnergy.request { host := "example", _features := none }
      (fun _ => .clientError) "api/v1/data" "GET" none =
      .error (.requestError
        "Error occurred while communicating with the HomeWizard Energy device") :=
  ⟨rfl, rfl, rfl⟩

/-- C7 (amended): a timeout and a connection-level fault both surface as
the same exception class `RequestError`; the two failures differ only in
their message text, not in exception type. -/
theorem c7_timeout_same_class_as_transport_fault (c : HomeWizardEnergy)
    (tT tC : Transport) (path method : String) (data : Option Json)
    (hto : tT ⟨c.url path, method, data⟩ = .timeout)
    (hce : tC ⟨c.url path, method, data⟩ = .clientError) :
    c.request tT path method data =
      .error (.requestError
        "Timeout occurred while connecting to the HomeWizard Energy device") ∧
    c.request tC path method data =
      .error (.requestError
        "Error occurred while communicating with the HomeWizard Energy device") ∧
    ("Timeout occurred while connecting to the HomeWizard Energy device" : String) ≠
      "Error occurred while communicating with the HomeWizard Energy device" ∧
    HWError.className (.requestError
      "Timeout occurred while connecting to the HomeWizard Energy device") =
    HWError.className (.requestError
      "Error occurred while communicating with the HomeWizard Energy device") := by
  refine ⟨?_, ?_, by decide, rfl⟩
  · unfold HomeWizardEnergy.request
    rw [hto]
  · unfold HomeWizardEnergy.request
    rw [hce]

theorem c7_timeout_same_class_as_transport_fault_witness :
    ((fun _ => .timeout : Transport)
      ⟨HomeWizardEnergy.url { host := "example", _features := none } "api/v1/data",
        "GET", none⟩ = .timeout) ∧
    ((fun _ => .clientError : Transport)
      ⟨HomeWizardEnergy.url { host := "example", _features := none } "api/v1/data",
        "GET", none⟩ = .clientError) ∧
    HomeWizardEnergy.request { host := "example", _features := none }
      (fun _ => .timeout) "api/v1/data" "GET" none =
      .error (.requestError
        "Timeout occurred while connecting to the HomeWizard Energy device") := by
  refine ⟨rfl, rfl, ?_⟩
  exact (c7_timeout_same_class_as_transport_fault
    { host := "example", _features := none } (fun _ => .timeout)
    (fun _ => .clientError) "api/v1/data" "GET" none rfl rfl).1

/-- C8 (counterexample): a well-formed payload reporting API version `"2"`
fails `device()` with `UnsupportedError` whose message names the expected
version `'1'` but does not contain the actual version `"2"` — the error
does not carry both versions. -/
theorem c8_counterexample :
    (HomeWizardEnergy.device { host := "example", _features := none }
      (fun _ => .response 200 "application/json"
        (.obj [("api_version", .str "2")]) "")).result =
      .error (.unsupportedError "Unsupported API version, expected version '1'") ∧
    strContains "Unsupported API version, expected version '1'" "2" = false := by
  exact ⟨rfl, by decide⟩

/-- C8 (amended): when the decoded payload reports an API version different
from the single supported one, `device()` fails with `UnsupportedError`
whose message is the fixed string naming only the expected version — the
same message whatever the actual reported version is. -/
theorem c8_version_error_names_expected_only (c : HomeWizardEnergy)
    (t : Transport) (kvs : List (String × Json)) (txt : String)
    (hresp : t ⟨c.url "api", "GET", none⟩ =
      .response 200 "application/json" (.obj kvs) txt)
    (hver : pyEqStr (pyLookup kvs "api_version") SUPPORTED_API_VERSION = false) :
    (c.device t).result =
      .error (.unsupportedError "Unsupported API version, expected version '1'") := by
  have hsc : strContains "application/json" "application/json" = true := by decide
  unfold HomeWizardEnergy.device HomeWizardEnergy.request
  rw [hresp]
  simp only [SUPPORTED_API_VERSION] at hver
  simp [Device.from_dict, hsc, hver, SUPPORTED_API_VERSION]

theorem c8_version_error_names_expected_only_witness :
    ((fun _ => .response 200 "application/json"
        (.obj [("api_version", .str "2")]) "" : Transport)
      ⟨HomeWizardEnergy.url { host := "example", _features := none } "api", "GET", none⟩ =
      .response 200 "application/json" (.obj [("api_version", .str "2")]) "") ∧
    pyEqStr (pyLookup [("api_version", .str "2")] "api_version")
      SUPPORTED_API_VERSION = false ∧
    (HomeWizardEnergy.device { host := "example", _features := none }
      (fun _ => .response 200 "application/json"
        (.obj [("api_version", .str "2")]) "")).result =
      .error (.unsupportedError "Unsupported API version, expected version '1'") :=
  ⟨rfl, rfl, c8_version_error_names_expected_only
    { host := "example", _features := none } _ [("api_version", .str "2")] "" rfl rfl⟩

/-- C10: when `device()` decodes a well-formed payload, it replaces the
cached feature set with one derived from the payload's product type and
firmware version before the API-version check, so even when the call then
fails with the unsupported-version error, the feature cache has already
been updated. -/
theorem c10_device_caches_features_before_version_check (c : HomeWizardEnergy)
    (t : Transport) (kvs : List (String × Json)) (txt : String)
    (hresp : t ⟨c.url "api", "GET", none⟩ =
      .response 200 "application/json" (.obj kvs) txt)
    (hver : pyEqStr (pyLookup kvs "api_version") SUPPORTED_API_VERSION = false) :
    (c.device t).client._features =
      some (Features.ofDevice (pyLookup kvs "product_type")
        (pyLookup kvs "firmware_version")) ∧
    (c.device t).result =
      .error (.unsupportedError
        ("Unsupported API version, expected version '" ++
          SUPPORTED_API_VERSION ++ "'")) := by
  have hsc : strContains "application/json" "application/json" = true := by decide
  unfold HomeWizardEnergy.device HomeWizardEnergy.request
  rw [hresp]
  simp only [SUPPORTED_API_VERSION] at hver
  simp [Device.from_dict, hsc, hver, SUPPORTED_API_VERSION]

theorem c10_device_caches_features_before_version_check_witness :
    ((fun _ => .response 200 "application/json"
        (.obj [("api_version", .str "v2"), ("product_type", .str "HWE-P1"),
          ("firmware_version", .str "2.11")]) "" : Transport)
      ⟨HomeWizardEnergy.url { host := "device.local", _features := none } "api",
        "GET", none⟩ =
      .response 200 "application/json"
        (.obj [("api_version", .str "v2"), ("product_type", .str "HWE-P1"),
          ("firmware_version", .str "2.11")]) "") ∧
    pyEqStr (pyLookup [("api_version", .str "v2"), ("product_type", .str "HWE-P1"),
        ("firmware_version", .str "2.11")] "api_version")
      SUPPORTED_API_VERSION = false ∧
    (HomeWizardEnergy.device { host := "device.local", _features := none }
      (fun _ => .response 200 "application/json"
        (.obj [("api_version", .str "v2"), ("product_type", .str "HWE-P1"),
          ("firmware_version", .str "2.11")]) "")).client._features =
      some (Features.ofDevice (some (.str "HWE-P1")) (some (.str "2.11"))) := by
  refine ⟨rfl, rfl, ?_⟩
  exact (c10_device_caches_features_before_version_check
    { host := "device.local", _features := none } _
    [("api_version", .str "v2"), ("product_type", .str "HWE-P1"),
      ("firmware_version", .str "2.11")] "" rfl rfl).1
